import Mathlib

/-!
Shallow embedding of the DSP core of the UE-AUDIO-MCP repository: the reSID
`Filter` (filter.h), the `SID16` extension accessors (sid.h), the frequency
register computation of the MetaSound oscillator/chip nodes
(SIDOscillatorNode.cpp, SIDChipNode.cpp), and the fractional cycle
accumulator of those nodes.

Conventions of the embedding:
* `sound_sample` / `cycle_count` (C++ `int`) are modelled as `Int`; all
  values occurring in the modelled paths fit comfortably in 32 bits, so
  wrap-around is not modelled.
* C++ arithmetic right shift `x >> n` on a signed int is floor division by
  `2 ^ n`, embedded as `asr` via `Int.fdiv`.
* C++ `float` arithmetic of the node glue (frequency conversion, cycle
  accumulator) is idealized as exact rational arithmetic `ℚ`;
  `static_cast<int32>` is truncation toward zero (`truncQ`).
* The C library `rand()` used by `Filter::Randomnoise` is a deterministic
  global stream; it is modelled as an arbitrary sequence `stream : Nat → Nat`
  together with a cursor position that each construction advances by 1024.
-/

namespace ReSID

/-- C++ arithmetic right shift on a signed integer: floor division by `2 ^ n`. -/
def asr (x : Int) (n : Nat) : Int := Int.fdiv x (2 ^ n)

/-- C `static_cast<int>` of a nonnegative-or-negative real value: truncation
toward zero. -/
def truncQ (x : ℚ) : Int := if x < 0 then -⌊-x⌋ else ⌊x⌋

/-- `Filter::Randomnoise` (filter.h lines 209-225): a 1024-entry noise buffer
with a cursor.  `buffer[i] = rand() % (1 << 19)` is filled at construction
time from the global `rand()` stream. -/
structure Randomnoise where
  buffer : Fin 1024 → Int
  index : Nat

/-- `Randomnoise::getNoise` (filter.h lines 221-224):
`index = (index + 1) & 0x3ff; return buffer[index];`
(`& 0x3ff` is `% 1024`). -/
def Randomnoise.getNoise (r : Randomnoise) : Int × Randomnoise :=
  let i := (r.index + 1) % 1024
  (r.buffer ⟨i, Nat.mod_lt _ (by omega)⟩, { r with index := i })

/-- State of the reSID `Filter` class (filter.h lines 121-244).
`q1024div` is the member `_1024_div_Q`.  The SIDKIT extension members
`dithering_enabled`, `voice_vol`, `res_boost` and the noise source `rnd`
are included (filter.h lines 227-243). -/
@[ext]
structure Filter where
  enabled : Bool
  fc : Nat
  res : Nat
  filt : Nat
  voice3off : Nat
  hp_bp_lp : Nat
  vol : Nat
  mixer_DC : Int
  Vhp : Int
  Vbp : Int
  Vlp : Int
  Vnf : Int
  w0 : Int
  w0_ceil_1 : Int
  w0_ceil_dt : Int
  q1024div : Int
  rnd : Randomnoise
  dithering_enabled : Bool
  voice_vol : Fin 3 → Int
  res_boost : Int

/-- Voice scaling prologue shared by both `Filter::clock` overloads
(filter.h lines 264-288 and 398-422): scales each voice from 20 to 13 bits,
adding dithering noise and per-voice volume when enabled, silences voice 3
when `voice3off` is set and voice 3 is not routed through the filter
(`!(filt & 0x04)`), and shifts `ext_in` down by 7.  Returns the four scaled
inputs and the advanced noise source (noise is drawn for voices 1 and 2, and
for voice 3 only when it is not silenced). -/
def Filter.scaleVoices (f : Filter) (voice1 voice2 voice3 ext_in : Int) :
    Int × Int × Int × Int × Randomnoise :=
  if f.dithering_enabled then
    let n1 := f.rnd.getNoise
    let n2 := n1.2.getNoise
    let s1 := asr (asr (voice1 + asr n1.1 12) 7 * f.voice_vol 0) 8
    let s2 := asr (asr (voice2 + asr n2.1 12) 7 * f.voice_vol 1) 8
    if f.voice3off ≠ 0 ∧ f.filt &&& 0x04 = 0 then
      (s1, s2, 0, asr ext_in 7, n2.2)
    else
      let n3 := n2.2.getNoise
      (s1, s2, asr (asr (voice3 + asr n3.1 12) 7 * f.voice_vol 2) 8, asr ext_in 7, n3.2)
  else
    let s1 := asr (asr voice1 7 * f.voice_vol 0) 8
    let s2 := asr (asr voice2 7 * f.voice_vol 1) 8
    if f.voice3off ≠ 0 ∧ f.filt &&& 0x04 = 0 then
      (s1, s2, 0, asr ext_in 7, f.rnd)
    else
      (s1, s2, asr (asr voice3 7 * f.voice_vol 2) 8, asr ext_in 7, f.rnd)

/-- The routing switch of `Filter::clock` (filter.h lines 305-371): the low
4 bits of `filt` select, per input, filter path `Vi` or bypass `Vnf`.
Returns `(Vi, Vnf)`.  The C++ `switch` puts `0x0` on the `default` branch. -/
def Filter.route (filt : Nat) (v1 v2 v3 e : Int) : Int × Int :=
  if filt = 0x1 then (v1, v2 + v3 + e)
  else if filt = 0x2 then (v2, v1 + v3 + e)
  else if filt = 0x3 then (v1 + v2, v3 + e)
  else if filt = 0x4 then (v3, v1 + v2 + e)
  else if filt = 0x5 then (v1 + v3, v2 + e)
  else if filt = 0x6 then (v2 + v3, v1 + e)
  else if filt = 0x7 then (v1 + v2 + v3, e)
  else if filt = 0x8 then (e, v1 + v2 + v3)
  else if filt = 0x9 then (v1 + e, v2 + v3)
  else if filt = 0xa then (v2 + e, v1 + v3)
  else if filt = 0xb then (v1 + v2 + e, v3)
  else if filt = 0xc then (v3 + e, v1 + v2)
  else if filt = 0xd then (v1 + v3 + e, v2)
  else if filt = 0xe then (v2 + v3 + e, v1)
  else if filt = 0xf then (v1 + v2 + v3 + e, 0)
  else (0, v1 + v2 + v3 + e)

/-- `Filter::clock(voice1, voice2, voice3, ext_in)` - one cycle
(filter.h lines 258-386).  After the scaling prologue, if the filter is
disabled `Vnf` collects everything and the integrators are cleared;
otherwise the routed `Vi` drives the two-integrator loop:
`dVbp = w0_ceil_1*Vhp >> 20; dVlp = w0_ceil_1*Vbp >> 20;
Vbp -= dVbp; Vlp -= dVlp; Vhp = (Vbp*_1024_div_Q >> 10) - Vlp - Vi`. -/
def Filter.clock1 (f : Filter) (voice1 voice2 voice3 ext_in : Int) : Filter :=
  let sc := f.scaleVoices voice1 voice2 voice3 ext_in
  let s1 := sc.1
  let s2 := sc.2.1
  let s3 := sc.2.2.1
  let se := sc.2.2.2.1
  if f.enabled = false then
    { f with Vnf := s1 + s2 + s3 + se, Vhp := 0, Vbp := 0, Vlp := 0, rnd := sc.2.2.2.2 }
  else
    let rt := Filter.route f.filt s1 s2 s3 se
    let dVbp := asr (f.w0_ceil_1 * f.Vhp) 20
    let dVlp := asr (f.w0_ceil_1 * f.Vbp) 20
    let Vbp := f.Vbp - dVbp
    let Vlp := f.Vlp - dVlp
    let Vhp := asr (Vbp * f.q1024div) 10 - Vlp - rt.1
    { f with Vnf := rt.2, Vhp := Vhp, Vbp := Vbp, Vlp := Vlp, rnd := sc.2.2.2.2 }

/-- One sub-step of the multi-cycle `Filter::clock` loop body
(filter.h lines 523-533), acting on `(Vhp, Vbp, Vlp)`:
`w0_delta_t = w0_ceil_dt*delta_t_flt >> 6; dVbp = w0_delta_t*Vhp >> 14;
dVlp = w0_delta_t*Vbp >> 14; Vbp -= dVbp; Vlp -= dVlp;
Vhp = (Vbp*_1024_div_Q >> 10) - Vlp - Vi`. -/
def integSub (w0_ceil_dt q Vi : Int) (flt : Nat) (s : Int × Int × Int) : Int × Int × Int :=
  let w0_delta_t := asr (w0_ceil_dt * (flt : Int)) 6
  let dVbp := asr (w0_delta_t * s.1) 14
  let dVlp := asr (w0_delta_t * s.2.1) 14
  let Vbp := s.2.1 - dVbp
  let Vlp := s.2.2 - dVlp
  (asr (Vbp * q) 10 - Vlp - Vi, Vbp, Vlp)

/-- The `while (delta_t)` loop of the multi-cycle `Filter::clock`
(filter.h lines 512-536), with the mutable `delta_t_flt` carried as `flt`:
`if (delta_t < delta_t_flt) delta_t_flt = delta_t;` then one `integSub`
sub-step, then `delta_t -= delta_t_flt`.  The loop consumes at least one
cycle per iteration (the entry value of `delta_t_flt` is 8), so `fuel = dt`
iterations always suffice; `clockLoopFuel_complete` below proves the fuel is
never exhausted, i.e. the C++ loop terminates. -/
def clockLoopFuel (w q Vi : Int) : Nat → Nat → Nat → (Int × Int × Int) → Int × Int × Int
  | 0, _, _, s => s
  | fuel + 1, flt, dt, s =>
    if dt = 0 then s
    else
      let ff := if dt < flt then dt else flt
      clockLoopFuel w q Vi fuel ff (dt - ff) (integSub w q Vi ff s)

/-- Entry point of the sub-stepping loop: `cycle_count delta_t_flt = 8;`
(filter.h line 512) followed by the `while` loop. -/
def Filter.clockLoop (w q Vi : Int) (dt : Nat) (s : Int × Int × Int) : Int × Int × Int :=
  clockLoopFuel w q Vi dt 8 dt s

/-- The sequence of `delta_t_flt` values the loop of the multi-cycle
`Filter::clock` takes: full sub-steps of 8 cycles, then the remainder.
(`delta_t_flt` stays 8 until `delta_t < 8`, at which point it becomes the
remaining `delta_t` and the loop exits on the next test.) -/
def filterSubsteps (dt : Nat) : List Nat :=
  if h : dt = 0 then []
  else if dt < 8 then [dt]
  else 8 :: filterSubsteps (dt - 8)
termination_by dt
decreasing_by omega

/-- `Filter::clock(delta_t, voice1, voice2, voice3, ext_in)`
(filter.h lines 391-537): scaling prologue, routing, then the bounded
sub-stepping loop over the integrator state. -/
def Filter.clockN (f : Filter) (delta_t : Nat) (voice1 voice2 voice3 ext_in : Int) : Filter :=
  let sc := f.scaleVoices voice1 voice2 voice3 ext_in
  let s1 := sc.1
  let s2 := sc.2.1
  let s3 := sc.2.2.1
  let se := sc.2.2.2.1
  if f.enabled = false then
    { f with Vnf := s1 + s2 + s3 + se, Vhp := 0, Vbp := 0, Vlp := 0, rnd := sc.2.2.2.2 }
  else
    let rt := Filter.route f.filt s1 s2 s3 se
    let st := Filter.clockLoop f.w0_ceil_dt f.q1024div rt.1 delta_t (f.Vhp, f.Vbp, f.Vlp)
    { f with Vnf := rt.2, Vhp := st.1, Vbp := st.2.1, Vlp := st.2.2, rnd := sc.2.2.2.2 }

/-- The filter-tap mixing switch of `Filter::output` (filter.h lines 562-588):
the low 3 bits of `hp_bp_lp` select which of `Vlp`, `Vbp`, `Vhp` are summed.
The C++ `switch` puts `0x0` on the `default` branch. -/
def Filter.taps (hp_bp_lp : Nat) (Vhp Vbp Vlp : Int) : Int :=
  if hp_bp_lp = 0x1 then Vlp
  else if hp_bp_lp = 0x2 then Vbp
  else if hp_bp_lp = 0x3 then Vlp + Vbp
  else if hp_bp_lp = 0x4 then Vhp
  else if hp_bp_lp = 0x5 then Vlp + Vhp
  else if hp_bp_lp = 0x6 then Vbp + Vhp
  else if hp_bp_lp = 0x7 then Vlp + Vbp + Vhp
  else 0

/-- `Filter::output` (filter.h lines 543-593): when disabled,
`(Vnf + mixer_DC) * vol`; otherwise the selected taps are added:
`(Vnf + Vf + mixer_DC) * vol`. -/
def Filter.output (f : Filter) : Int :=
  if f.enabled = false then (f.Vnf + f.mixer_DC) * (f.vol : Int)
  else (f.Vnf + Filter.taps f.hp_bp_lp f.Vhp f.Vbp f.Vlp + f.mixer_DC) * (f.vol : Int)

/-- Modelled from the spec: `Filter::Filter()` lives in `filter_impl.h`, which
is not part of the repository sources; per spec §3, construction initializes
the register file to silence (all registers 0), and the filter is enabled.
The values that the missing `set_w0` / `set_Q` / `set_chip_model` derive from
the spline tables (`w0`, `w0_ceil_1`, `w0_ceil_dt`, `_1024_div_Q`,
`mixer_DC`) are set here to 0; they are identical for any two
identically-constructed instances, which is all the theorems below use.
The SIDKIT members keep their in-class initializers from filter.h lines
227-243: `dithering_enabled = true`, `voice_vol = {256,256,256}`,
`res_boost = 0`.  The `Randomnoise` member is filled from 1024 successive
values of the global `rand()` stream starting at cursor `pos`
(filter.h lines 215-220), each reduced `% (1 << 19)`; the advanced cursor is
returned so a second construction in the same process starts where the first
stopped. -/
def Filter.construct (stream : Nat → Nat) (pos : Nat) : Filter × Nat :=
  ({ enabled := true, fc := 0, res := 0, filt := 0, voice3off := 0, hp_bp_lp := 0,
     vol := 0, mixer_DC := 0, Vhp := 0, Vbp := 0, Vlp := 0, Vnf := 0,
     w0 := 0, w0_ceil_1 := 0, w0_ceil_dt := 0, q1024div := 0,
     rnd := { buffer := fun i => ((stream (pos + i.val) % 2 ^ 19 : Nat) : Int), index := 0 },
     dithering_enabled := true,
     voice_vol := fun _ => 256,
     res_boost := 0 }, pos + 1024)

/-- Modelled from the spec: `Filter::writeMODE_VOL` is declared in filter.h
line 145 but implemented in the missing `filter_impl.h`; per spec §3 the
mode+volume register is "4+4 bit" and §4.4 "all registers are range-masked on
write": the low nibble is the master volume, bits 4-6 the filter mode. -/
def Filter.writeMODE_VOL (f : Filter) (v : Nat) : Filter :=
  { f with vol := v &&& 0x0f, hp_bp_lp := (v >>> 4) &&& 0x07 }

/-- A register-write / clock-step command for a `Filter` run, as in the
spec's determinism property ("identical sequence of register writes and
clock-cycle calls"). -/
inductive FilterCmd where
  | writeModeVol : Nat → FilterCmd
  | step : Int → Int → Int → Int → FilterCmd

/-- Run a command sequence on a filter; each clock step emits the filter
output sample after the step, producing the run's output sequence. -/
def Filter.runOutputs (f : Filter) : List FilterCmd → List Int
  | [] => []
  | FilterCmd.writeModeVol v :: cs => (f.writeMODE_VOL v).runOutputs cs
  | FilterCmd.step a b c d :: cs =>
    let f' := f.clock1 a b c d
    f'.output :: f'.runOutputs cs

/-- Stock-reSID voice scaling, i.e. the prologue of `Filter::clock` with both
SIDKIT extensions stripped: plain `voice >> 7` scaling (the pre-SIDKIT reSID
code, recovered from filter.h by deleting the dithering term and the
`* voice_vol >> 8` factor), with the unchanged `voice3off` logic and
`ext_in >>= 7`.  Used as the comparison point for the "bit-exact when
extensions are disabled" refinement claim. -/
def Filter.baseScaleVoices (f : Filter) (voice1 voice2 voice3 ext_in : Int) :
    Int × Int × Int × Int × Randomnoise :=
  let s1 := asr voice1 7
  let s2 := asr voice2 7
  if f.voice3off ≠ 0 ∧ f.filt &&& 0x04 = 0 then
    (s1, s2, 0, asr ext_in 7, f.rnd)
  else
    (s1, s2, asr voice3 7, asr ext_in 7, f.rnd)

/-- Stock-reSID one-cycle `Filter::clock`: identical to `Filter.clock1`
except that the voices enter through the stock scaling
(`Filter.baseScaleVoices`). -/
def Filter.baseClock1 (f : Filter) (voice1 voice2 voice3 ext_in : Int) : Filter :=
  let sc := f.baseScaleVoices voice1 voice2 voice3 ext_in
  let s1 := sc.1
  let s2 := sc.2.1
  let s3 := sc.2.2.1
  let se := sc.2.2.2.1
  if f.enabled = false then
    { f with Vnf := s1 + s2 + s3 + se, Vhp := 0, Vbp := 0, Vlp := 0, rnd := sc.2.2.2.2 }
  else
    let rt := Filter.route f.filt s1 s2 s3 se
    let dVbp := asr (f.w0_ceil_1 * f.Vhp) 20
    let dVlp := asr (f.w0_ceil_1 * f.Vbp) 20
    let Vbp := f.Vbp - dVbp
    let Vlp := f.Vlp - dVlp
    let Vhp := asr (Vbp * f.q1024div) 10 - Vlp - rt.1
    { f with Vnf := rt.2, Vhp := Vhp, Vbp := Vbp, Vlp := Vlp, rnd := sc.2.2.2.2 }

/-- Stock-reSID multi-cycle `Filter::clock`: identical to `Filter.clockN`
except for the stock voice scaling. -/
def Filter.baseClockN (f : Filter) (delta_t : Nat) (voice1 voice2 voice3 ext_in : Int) :
    Filter :=
  let sc := f.baseScaleVoices voice1 voice2 voice3 ext_in
  let s1 := sc.1
  let s2 := sc.2.1
  let s3 := sc.2.2.1
  let se := sc.2.2.2.1
  if f.enabled = false then
    { f with Vnf := s1 + s2 + s3 + se, Vhp := 0, Vbp := 0, Vlp := 0, rnd := sc.2.2.2.2 }
  else
    let rt := Filter.route f.filt s1 s2 s3 se
    let st := Filter.clockLoop f.w0_ceil_dt f.q1024div rt.1 delta_t (f.Vhp, f.Vbp, f.Vlp)
    { f with Vnf := rt.2, Vhp := st.1, Vbp := st.2.1, Vlp := st.2.2, rnd := sc.2.2.2.2 }

/-- The per-cycle integrator update exactly as the spec's §4.4 equations read
when executed sequentially as written, which is what claim C4 asserts:
`Vbp -= w0*Vhp*dt;` then `Vlp -= w0*Vbp*dt;` with `Vlp` reading the
ALREADY-UPDATED `Vbp`, then `Vhp = Vbp*(1024/Q)>>10 - Vlp - Vi`.
This is a spec-side definition, for comparison against the code's
`Filter.clock1`. -/
def integStepSeqSpec (w0_ceil_1 q Vi : Int) (Vhp Vbp Vlp : Int) : Int × Int × Int :=
  let Vbp' := Vbp - asr (w0_ceil_1 * Vhp) 20
  let Vlp' := Vlp - asr (w0_ceil_1 * Vbp') 20
  (asr (Vbp' * q) 10 - Vlp' - Vi, Vbp', Vlp')

/-- The SIDKIT extension state of `SID16` (sid.h lines 200-212), with the
in-class initializers.  `env_output v` stands for `voice[v].envelope.output()`
read by `getEnvelopeOutput` (sid.h line 70); the envelope itself lives in the
missing `envelope.h` and is modelled as an opaque observable value here. -/
structure SID16Ext where
  fm_mod_source : Fin 3 → Int
  fm_mod_depth : Fin 3 → Int
  fm_enabled : Bool
  voice_volume : Fin 3 → Int
  voice_volume_enabled : Bool
  res_boost : Int
  res_boost_enabled : Bool
  voice_output : Fin 3 → Int
  env_output : Fin 3 → Int

/-- The in-class initializers of sid.h lines 200-212:
`fm_mod_source = {-1,-1,-1}`, `fm_mod_depth = {0,0,0}`, `fm_enabled = false`,
`voice_volume = {256,256,256}`, `voice_volume_enabled = false`,
`res_boost = 0`, `res_boost_enabled = false`, `voice_output = {0,0,0}`.
`env_output = 0` is modelled from the spec (§3: construction initializes to
silence; envelope.h is missing from the sources). -/
def SID16Ext.init : SID16Ext :=
  { fm_mod_source := fun _ => -1, fm_mod_depth := fun _ => 0, fm_enabled := false,
    voice_volume := fun _ => 256, voice_volume_enabled := false,
    res_boost := 0, res_boost_enabled := false,
    voice_output := fun _ => 0, env_output := fun _ => 0 }

/-- `SID16::setVoiceVolume` (sid.h line 48):
`if (v >= 0 && v < 3) voice_volume[v] = vol;`. -/
def SID16Ext.setVoiceVolume (s : SID16Ext) (v vol : Int) : SID16Ext :=
  if h : 0 ≤ v ∧ v < 3 then
    { s with voice_volume := Function.update s.voice_volume ⟨v.toNat, by omega⟩ vol }
  else s

/-- `SID16::getVoiceVolume` (sid.h line 49):
`return (v >= 0 && v < 3) ? voice_volume[v] : 256;`. -/
def SID16Ext.getVoiceVolume (s : SID16Ext) (v : Int) : Int :=
  if h : 0 ≤ v ∧ v < 3 then s.voice_volume ⟨v.toNat, by omega⟩ else 256

/-- `SID16::setFM` (sid.h lines 54-56):
`if (v >= 0 && v < 3) { fm_mod_source[v] = source - 1; fm_mod_depth[v] = amount; }`. -/
def SID16Ext.setFM (s : SID16Ext) (v source amount : Int) : SID16Ext :=
  if h : 0 ≤ v ∧ v < 3 then
    { s with
      fm_mod_source := Function.update s.fm_mod_source ⟨v.toNat, by omega⟩ (source - 1),
      fm_mod_depth := Function.update s.fm_mod_depth ⟨v.toNat, by omega⟩ amount }
  else s

/-- `SID16::getFMSource` (sid.h line 57):
`return (v >= 0 && v < 3) ? fm_mod_source[v] + 1 : 0;`. -/
def SID16Ext.getFMSource (s : SID16Ext) (v : Int) : Int :=
  if h : 0 ≤ v ∧ v < 3 then s.fm_mod_source ⟨v.toNat, by omega⟩ + 1 else 0

/-- `SID16::getFMAmount` (sid.h line 58):
`return (v >= 0 && v < 3) ? fm_mod_depth[v] : 0;`. -/
def SID16Ext.getFMAmount (s : SID16Ext) (v : Int) : Int :=
  if h : 0 ≤ v ∧ v < 3 then s.fm_mod_depth ⟨v.toNat, by omega⟩ else 0

/-- `SID16::getVoiceOutput` (sid.h line 69):
`return (v >= 0 && v < 3) ? voice_output[v] : 0;`. -/
def SID16Ext.getVoiceOutput (s : SID16Ext) (v : Int) : Int :=
  if h : 0 ≤ v ∧ v < 3 then s.voice_output ⟨v.toNat, by omega⟩ else 0

/-- `SID16::getEnvelopeOutput` (sid.h line 70):
`return (v >= 0 && v < 3) ? voice[v].envelope.output() : 0;`. -/
def SID16Ext.getEnvelopeOutput (s : SID16Ext) (v : Int) : Int :=
  if h : 0 ≤ v ∧ v < 3 then s.env_output ⟨v.toNat, by omega⟩ else 0

/-- `FMath::Clamp(*FrequencyInput, 0.1f, 20000.0f)`
(SIDOscillatorNode.cpp line 141, SIDChipNode.cpp line 320). -/
def clampFreq (f : ℚ) : ℚ := min (max f (1 / 10)) 20000

/-- `reg24 SIDFreq = static_cast<reg24>((FreqHz * 16777216.0f) / SIDClockRate);`
with `SIDClockRate = 985248.0f` (SIDOscillatorNode.cpp lines 140-142,
SIDChipNode.cpp lines 321-322).  The float arithmetic is idealized as exact
rational arithmetic; the cast truncates (the value is positive and far below
2^24, so the `reg24` width is not reached). -/
def sidFreq (f : ℚ) : Nat := (truncQ (clampFreq f * 16777216 / 985248)).toNat

/-- Modelled from the spec: `WaveformGenerator::writeFREQ_LO` lives in the
missing `wave.h`; per spec §3 the per-voice frequency register is 16-bit,
little-endian split, and registers are range-masked on write.  The low byte
is replaced: `freq = (freq & 0xff00) | (lo & 0x00ff)`, written arithmetically
(`x & 0xff = x % 256` and `x & 0xff00` keeps bits 8-15, on nonnegative
values). -/
def writeFREQ_LO (freq b : Nat) : Nat := (freq / 256 % 256) * 256 + b % 256

/-- Modelled from the spec: `WaveformGenerator::writeFREQ_HI` from the missing
`wave.h`; the high byte is replaced:
`freq = ((hi << 8) & 0xff00) | (freq & 0x00ff)`, written arithmetically. -/
def writeFREQ_HI (freq b : Nat) : Nat := (b % 256) * 256 + freq % 256

/-- The full frequency write the oscillator/chip node performs for a frequency
input of `f` Hz (SIDOscillatorNode.cpp lines 140-144, SIDChipNode.cpp lines
320-324): `writeFREQ_LO(SIDFreq & 0xFF); writeFREQ_HI((SIDFreq >> 8) & 0xFF);`
applied to the previous register value `prev` (`&0xFF` is `%256`, `>>8` is
`/256` on these nonnegative values). -/
def writeFreqHz (prev : Nat) (f : ℚ) : Nat :=
  writeFREQ_HI (writeFREQ_LO prev (sidFreq f % 256)) (sidFreq f / 256 % 256)

/-- The spec's register formula: `Fn = round(f * 2^24 / f_clock)` with
`f_clock = 985248` (spec §3 and §8). -/
def specFreqRegister (f : ℚ) : Int := round (f * 16777216 / 985248)

/-- One step of the fractional cycle accumulator
(SIDOscillatorNode.cpp lines 175-177, SIDChipNode.cpp lines 426-428):
`CycleAccumulator += CyclesPerSample; WholeCycles = (int32)CycleAccumulator;
CycleAccumulator -= (float)WholeCycles;`.  Float state idealized as `ℚ`.
Returns the whole-cycle count for this sample and the retained fraction. -/
def cyclesForNextSample (r acc : ℚ) : Int × ℚ :=
  let a := acc + r
  let w := truncQ a
  (w, a - w)

/-- `N` successive samples of the cycle accumulator, starting from the
freshly-constructed state `CycleAccumulator = 0.0f`: the list of emitted
whole-cycle counts and the final fractional state. -/
def accRun (r : ℚ) : Nat → List Int × ℚ
  | 0 => ([], 0)
  | n + 1 =>
    let p := accRun r n
    let c := cyclesForNextSample r p.2
    (p.1 ++ [c.1], c.2)

/-- `SIDClockRate / SampleRate` (SIDOscillatorNode.cpp line 169,
SIDChipNode.cpp line 396). -/
def cyclesPerSample (clockRate sampleRate : ℚ) : ℚ := clockRate / sampleRate

lemma asr_zero (n : Nat) : asr 0 n = 0 := by
  simp [asr, Int.zero_fdiv]

lemma asr_mul_256 (x : Int) : asr (x * 256) 8 = x := by
  have h : (2 : Int) ^ 8 = 256 := by norm_num
  unfold asr
  rw [h]
  exact Int.mul_fdiv_cancel x (by norm_num)

lemma clockLoopFuel_dt_zero (w q Vi : Int) (fuel flt : Nat) (s : Int × Int × Int) :
    clockLoopFuel w q Vi fuel flt 0 s = s := by
  cases fuel <;> simp [clockLoopFuel]

lemma clockLoopFuel_eq_foldl (w q Vi : Int) :
    ∀ (fuel dt : Nat) (s : Int × Int × Int), dt ≤ fuel →
      clockLoopFuel w q Vi fuel 8 dt s
        = (filterSubsteps dt).foldl (fun st n => integSub w q Vi n st) s := by
  intro fuel
  induction fuel with
  | zero =>
    intro dt s h
    have h0 : dt = 0 := by omega
    subst h0
    simp [clockLoopFuel, filterSubsteps]
  | succ fuel ih =>
    intro dt s h
    by_cases h0 : dt = 0
    · subst h0
      simp [clockLoopFuel, filterSubsteps]
    · by_cases h8 : dt < 8
      · unfold filterSubsteps
        simp [clockLoopFuel, h0, h8, clockLoopFuel_dt_zero]
      · unfold filterSubsteps
        simp [clockLoopFuel, h0, h8]
        exact ih (dt - 8) _ (by omega)

lemma filterSubsteps_sum : ∀ dt, (filterSubsteps dt).sum = dt := by
  intro dt
  induction dt using Nat.strong_induction_on with
  | _ dt ih =>
    unfold filterSubsteps
    by_cases h0 : dt = 0
    · simp [h0]
    · by_cases h8 : dt < 8
      · simp [h0, h8]
      · simp [h0, h8, ih (dt - 8) (by omega)]
        omega

lemma filterSubsteps_bounds : ∀ dt, ∀ x ∈ filterSubsteps dt, 1 ≤ x ∧ x ≤ 8 := by
  intro dt
  induction dt using Nat.strong_induction_on with
  | _ dt ih =>
    unfold filterSubsteps
    by_cases h0 : dt = 0
    · simp [h0]
    · by_cases h8 : dt < 8
      · simp [h0, h8]
        omega
      · intro x hx
        simp [h0, h8] at hx
        rcases hx with hx | hx
        · omega
        · exact ih (dt - 8) (by omega) x hx

/-- C6: for every cycle count `delta_t ≥ 0`, the multi-cycle filter clock
terminates (`Filter.clockLoop` is a total function whose fuel, proved
sufficient here, bounds the C++ `while` loop's iterations), performing its
integrator updates in sub-steps of at most 8 cycles each, with the sub-step
cycle counts summing exactly to `delta_t`: the loop equals the fold of the
per-sub-step update over the sub-step schedule `filterSubsteps delta_t`. -/
theorem C6_substepping (w q Vi : Int) (dt : Nat) (s : Int × Int × Int) :
    (filterSubsteps dt).sum = dt
    ∧ (∀ x ∈ filterSubsteps dt, 1 ≤ x ∧ x ≤ 8)
    ∧ Filter.clockLoop w q Vi dt s
        = (filterSubsteps dt).foldl (fun st n => integSub w q Vi n st) s :=
  ⟨filterSubsteps_sum dt, filterSubsteps_bounds dt,
    clockLoopFuel_eq_foldl w q Vi dt dt s le_rfl⟩

/-- Witness for C6 at `delta_t = 20` and a concrete integrator state. -/
theorem C6_substepping_witness :
    (filterSubsteps 20).sum = 20
    ∧ (∀ x ∈ filterSubsteps 20, 1 ≤ x ∧ x ≤ 8)
    ∧ Filter.clockLoop 105414 1024 0 20 (0, 100, 2000)
        = (filterSubsteps 20).foldl (fun st n => integSub 105414 1024 0 n st) (0, 100, 2000) :=
  C6_substepping 105414 1024 0 20 (0, 100, 2000)

lemma accRun_spec (r : ℚ) (hr : 0 < r) :
    ∀ N, 0 ≤ (accRun r N).2 ∧ (accRun r N).2 < 1
      ∧ ((accRun r N).1.sum : ℚ) = N * r - (accRun r N).2
      ∧ ∀ c ∈ (accRun r N).1, 0 ≤ c := by
  intro N
  induction N with
  | zero => simp [accRun]
  | succ n ih =>
    obtain ⟨h0, h1, hsum, hall⟩ := ih
    have ha : (0 : ℚ) ≤ (accRun r n).2 + r := by linarith
    have htr : truncQ ((accRun r n).2 + r) = ⌊(accRun r n).2 + r⌋ := by
      simp [truncQ, not_lt.mpr ha]
    have hstep : accRun r (n + 1)
        = ((accRun r n).1 ++ [⌊(accRun r n).2 + r⌋],
           ((accRun r n).2 + r) - ⌊(accRun r n).2 + r⌋) := by
      simp only [accRun, cyclesForNextSample, htr]
    rw [hstep]
    refine ⟨?_, ?_, ?_, ?_⟩
    · have := Int.floor_le ((accRun r n).2 + r)
      simp only []
      linarith
    · have := Int.lt_floor_add_one ((accRun r n).2 + r)
      simp only []
      linarith
    · simp only [List.sum_append, List.sum_cons, List.sum_nil, add_zero]
      rw [Int.cast_add, hsum]
      push_cast
      ring
    · intro c hc
      simp only [List.mem_append, List.mem_singleton] at hc
      rcases hc with hc | hc
      · exact hall c hc
      · subst hc
        exact Int.floor_nonneg.mpr ha

/-- C5: for every positive host sample rate and chip clock rate, every
per-sample call of the fractional cycle accumulator returns a non-negative
whole-cycle count and carries a fractional remainder in `[0, 1)`, and after
any number `N` of samples the emitted cycles sum to within 1 cycle of
`N * clockRate / sampleRate`.  (The node's `float` accumulator is idealized
as exact rational arithmetic.) -/
theorem C5_cycleAccumulator (clockRate sampleRate : ℚ) (hc : 0 < clockRate)
    (hs : 0 < sampleRate) (N : Nat) :
    (∀ c ∈ (accRun (cyclesPerSample clockRate sampleRate) N).1, 0 ≤ c)
    ∧ 0 ≤ (accRun (cyclesPerSample clockRate sampleRate) N).2
    ∧ (accRun (cyclesPerSample clockRate sampleRate) N).2 < 1
    ∧ |((accRun (cyclesPerSample clockRate sampleRate) N).1.sum : ℚ)
        - N * cyclesPerSample clockRate sampleRate| < 1 := by
  have hr : 0 < cyclesPerSample clockRate sampleRate := div_pos hc hs
  obtain ⟨h0, h1, hsum, hall⟩ := accRun_spec _ hr N
  refine ⟨hall, h0, h1, ?_⟩
  rw [hsum]
  have heq : (N : ℚ) * cyclesPerSample clockRate sampleRate
      - (accRun (cyclesPerSample clockRate sampleRate) N).2
      - N * cyclesPerSample clockRate sampleRate
      = -(accRun (cyclesPerSample clockRate sampleRate) N).2 := by ring
  rw [heq, abs_neg, abs_of_nonneg h0]
  exact h1

/-- Witness for C5 at the SID clock `985248` Hz, host rate `48000` Hz, `N = 5`. -/
theorem C5_cycleAccumulator_witness :
    (0 : ℚ) < 985248 ∧ (0 : ℚ) < 48000
    ∧ ((∀ c ∈ (accRun (cyclesPerSample 985248 48000) 5).1, 0 ≤ c)
      ∧ 0 ≤ (accRun (cyclesPerSample 985248 48000) 5).2
      ∧ (accRun (cyclesPerSample 985248 48000) 5).2 < 1
      ∧ |((accRun (cyclesPerSample 985248 48000) 5).1.sum : ℚ)
          - 5 * cyclesPerSample 985248 48000| < 1) :=
  ⟨by norm_num, by norm_num,
    C5_cycleAccumulator 985248 48000 (by norm_num) (by norm_num) 5⟩

/-- C9: for every voice index outside `{0,1,2}`, the SID16 extension
accessors are total and index-safe: the setters leave the state unchanged,
`getVoiceVolume` returns 256, `getFMSource`/`getFMAmount` return 0, and
`getVoiceOutput`/`getEnvelopeOutput` return 0. -/
theorem C9_accessorsIndexSafe (s : SID16Ext) (v vol source amount : Int)
    (h : ¬ (0 ≤ v ∧ v < 3)) :
    s.setVoiceVolume v vol = s
    ∧ s.setFM v source amount = s
    ∧ s.getVoiceVolume v = 256
    ∧ s.getFMSource v = 0
    ∧ s.getFMAmount v = 0
    ∧ s.getVoiceOutput v = 0
    ∧ s.getEnvelopeOutput v = 0 := by
  unfold SID16Ext.setVoiceVolume SID16Ext.setFM SID16Ext.getVoiceVolume
    SID16Ext.getFMSource SID16Ext.getFMAmount SID16Ext.getVoiceOutput
    SID16Ext.getEnvelopeOutput
  simp [h]

/-- Witness for C9 at the out-of-range index `v = 3` on the fresh state. -/
theorem C9_accessorsIndexSafe_witness :
    ¬ ((0 : Int) ≤ 3 ∧ (3 : Int) < 3)
    ∧ (SID16Ext.init.setVoiceVolume 3 100 = SID16Ext.init
      ∧ SID16Ext.init.setFM 3 1 50 = SID16Ext.init
      ∧ SID16Ext.init.getVoiceVolume 3 = 256
      ∧ SID16Ext.init.getFMSource 3 = 0
      ∧ SID16Ext.init.getFMAmount 3 = 0
      ∧ SID16Ext.init.getVoiceOutput 3 = 0
      ∧ SID16Ext.init.getEnvelopeOutput 3 = 0) :=
  ⟨by decide, C9_accessorsIndexSafe SID16Ext.init 3 100 1 50 (by decide)⟩

lemma writeFreqHz_eq (prev : ℕ) (f : ℚ) : writeFreqHz prev f = sidFreq f % 65536 := by
  unfold writeFreqHz writeFREQ_HI writeFREQ_LO
  omega

/-- Counterexample to C3 as stated: at `f = 20000` Hz the value
`trunc(f * 2^24 / 985248) = 340568` does not fit the 16-bit frequency
register; the stored register is `340568 % 2^16 = 12888`, which is not
within rounding tolerance of `round(f * 2^24 / 985248) = 340568`. -/
theorem C3_cex :
    writeFreqHz 0 20000 = 12888
    ∧ specFreqRegister 20000 = 340568
    ∧ ¬ (((writeFreqHz 0 20000 : Int) - specFreqRegister 20000).natAbs ≤ 1) := by
  have hs : sidFreq 20000 = 340568 := by
    unfold sidFreq clampFreq truncQ
    norm_num
    decide
  have h1 : writeFreqHz 0 20000 = 12888 := by
    rw [writeFreqHz_eq, hs]
  have h2 : specFreqRegister 20000 = 340568 := by
    unfold specFreqRegister
    rw [round_eq]
    norm_num
  exact ⟨h1, h2, by rw [h1, h2]; decide⟩

/-- C3 (amended): for every `f` in `[0.1, 20000]` Hz the frequency write is
idempotent — the stored register depends only on `f`, not on the previous
register value — and whenever the computed value `trunc(f * 2^24 / 985248)`
fits in 16 bits, the stored register equals it, and it is within 1 of the
spec's `round(f * 2^24 / 985248)` (truncation instead of rounding). -/
theorem C3_freqRegister (f : ℚ) (p1 p2 : ℕ) (h1 : 1 / 10 ≤ f) (h2 : f ≤ 20000) :
    writeFreqHz p1 f = writeFreqHz p2 f
    ∧ (sidFreq f < 65536 →
        writeFreqHz p1 f = sidFreq f
        ∧ ((writeFreqHz p1 f : Int) - specFreqRegister f).natAbs ≤ 1) := by
  have hcl : clampFreq f = f := by
    unfold clampFreq
    rw [max_eq_left h1, min_eq_left h2]
  have hf0 : (0 : ℚ) < f := lt_of_lt_of_le (by norm_num) h1
  have hx0 : (0 : ℚ) ≤ f * 16777216 / 985248 := by positivity
  have htr : truncQ (f * 16777216 / 985248) = ⌊f * 16777216 / 985248⌋ := by
    simp [truncQ, not_lt.mpr hx0]
  have hsf : (sidFreq f : Int) = ⌊f * 16777216 / 985248⌋ := by
    unfold sidFreq
    rw [hcl, htr]
    exact Int.toNat_of_nonneg (Int.floor_nonneg.mpr hx0)
  refine ⟨by rw [writeFreqHz_eq, writeFreqHz_eq], fun hlt => ⟨?_, ?_⟩⟩
  · rw [writeFreqHz_eq]
    exact Nat.mod_eq_of_lt hlt
  · rw [writeFreqHz_eq, Nat.mod_eq_of_lt hlt]
    unfold specFreqRegister
    rw [round_eq, hsf]
    have hlow : ⌊f * 16777216 / 985248⌋ ≤ ⌊f * 16777216 / 985248 + 1 / 2⌋ :=
      Int.floor_le_floor (by linarith)
    have hhigh : ⌊f * 16777216 / 985248 + 1 / 2⌋ ≤ ⌊f * 16777216 / 985248⌋ + 1 := by
      have := Int.floor_le_floor
        (show f * 16777216 / 985248 + 1 / 2 ≤ f * 16777216 / 985248 + 1 by linarith)
      rwa [Int.floor_add_one] at this
    omega

/-- Witness for C3 at `f = 440` Hz with two different prior register values. -/
theorem C3_freqRegister_witness :
    (1 / 10 ≤ (440 : ℚ) ∧ (440 : ℚ) ≤ 20000)
    ∧ (writeFreqHz 0 440 = writeFreqHz 12345 440
      ∧ (sidFreq 440 < 65536 →
          writeFreqHz 0 440 = sidFreq 440
          ∧ ((writeFreqHz 0 440 : Int) - specFreqRegister 440).natAbs ≤ 1)) :=
  ⟨⟨by norm_num, by norm_num⟩, C3_freqRegister 440 0 12345 (by norm_num) (by norm_num)⟩

/-- A silent noise source, for concrete filter states. -/
def zeroNoise : Randomnoise := { buffer := fun _ => 0, index := 0 }

/-- A concrete enabled filter state with stock extension settings (dithering
off, unity per-voice volume), routing mask 0, lowpass mode, full volume, and
realistic cutoff/resonance coefficients. -/
def sampleFilter : Filter :=
  { enabled := true, fc := 256, res := 3, filt := 0, voice3off := 0, hp_bp_lp := 1,
    vol := 15, mixer_DC := 0, Vhp := 0, Vbp := 0, Vlp := 0, Vnf := 0,
    w0 := 105414, w0_ceil_1 := 105414, w0_ceil_dt := 105414, q1024div := 1024,
    rnd := zeroNoise, dithering_enabled := false, voice_vol := fun _ => 256,
    res_boost := 0 }

lemma taps_zero (m : Nat) : Filter.taps m 0 0 0 = 0 := by
  unfold Filter.taps
  repeat' split <;> simp

/-- Replace the cutoff and resonance registers, every coefficient the missing
`set_w0`/`set_Q` derive from them, and the filter-mode bits — the state
components claims C2 and C10 assert the output to be independent of. -/
def Filter.setTone (f : Filter) (c r : Nat) (w wc wd q : Int) (m : Nat) : Filter :=
  { f with
    fc := c
    res := r
    w0 := w
    w0_ceil_1 := wc
    w0_ceil_dt := wd
    q1024div := q
    hp_bp_lp := m }

/-- A filter state with routing mask 0, lowpass mode selected, full volume,
and a non-zero residual lowpass integrator voltage (`Vlp = 1000`) — reachable
by routing voices through the filter before clearing the routing mask. -/
def residualLpFilter : Filter := { sampleFilter with Vlp := 1000 }

/-- Counterexample to C2 as stated: on the reachable routing-mask-0 state
`residualLpFilter`, `output()` after one clock is `15000` (the residual
`Vlp` leaks through the lowpass tap), not the unfiltered voice mix (`0`)
scaled by the master volume. -/
theorem C2_cex :
    ((residualLpFilter.clock1 0 0 0 0).output : Int)
      ≠ ((residualLpFilter.scaleVoices 0 0 0 0).1
          + (residualLpFilter.scaleVoices 0 0 0 0).2.1
          + (residualLpFilter.scaleVoices 0 0 0 0).2.2.1
          + (residualLpFilter.scaleVoices 0 0 0 0).2.2.2.1) * (residualLpFilter.vol : Int) := by
  decide

/-- C2 (amended): with routing mask 0 and the integrator state zero (as it is
from reset, and as it remains while the mask is 0), clock-then-output equals
the sum of the four scaled inputs plus the mixer DC offset, scaled by the
master volume — independently of the cutoff and resonance registers, of the
coefficients derived from them, and of the filter mode; and the zero
integrator state is preserved. -/
theorem C2_routingZero (f : Filter) (c r : Nat) (w wc wd q : Int) (m : Nat)
    (v1 v2 v3 e : Int)
    (hen : f.enabled = true) (hfilt : f.filt = 0)
    (hhp : f.Vhp = 0) (hbp : f.Vbp = 0) (hlp : f.Vlp = 0) :
    (Filter.clock1 (f.setTone c r w wc wd q m) v1 v2 v3 e).output
      = ((f.scaleVoices v1 v2 v3 e).1 + (f.scaleVoices v1 v2 v3 e).2.1
          + (f.scaleVoices v1 v2 v3 e).2.2.1 + (f.scaleVoices v1 v2 v3 e).2.2.2.1
          + f.mixer_DC) * (f.vol : Int)
    ∧ (Filter.clock1 (f.setTone c r w wc wd q m) v1 v2 v3 e).Vhp = 0
    ∧ (Filter.clock1 (f.setTone c r w wc wd q m) v1 v2 v3 e).Vbp = 0
    ∧ (Filter.clock1 (f.setTone c r w wc wd q m) v1 v2 v3 e).Vlp = 0 := by
  refine ⟨?_, ?_, ?_, ?_⟩ <;>
    simp [Filter.clock1, Filter.output, Filter.route, Filter.setTone, Filter.scaleVoices,
      hen, hfilt, hhp, hbp, hlp, taps_zero, asr_zero, mul_zero, zero_mul]

/-- Witness for C2 on a concrete zero-integrator state with non-trivial
inputs and modified cutoff/resonance registers. -/
theorem C2_routingZero_witness :
    (sampleFilter.enabled = true ∧ sampleFilter.filt = 0 ∧ sampleFilter.Vhp = 0
      ∧ sampleFilter.Vbp = 0 ∧ sampleFilter.Vlp = 0)
    ∧ (Filter.clock1 (sampleFilter.setTone 2047 15 999 999 999 683 7) 70000 80000 90000 0).output
      = ((sampleFilter.scaleVoices 70000 80000 90000 0).1
          + (sampleFilter.scaleVoices 70000 80000 90000 0).2.1
          + (sampleFilter.scaleVoices 70000 80000 90000 0).2.2.1
          + (sampleFilter.scaleVoices 70000 80000 90000 0).2.2.2.1
          + sampleFilter.mixer_DC) * (sampleFilter.vol : Int) :=
  ⟨⟨rfl, rfl, rfl, rfl, rfl⟩,
    (C2_routingZero sampleFilter 2047 15 999 999 999 683 7 70000 80000 90000 0
      rfl rfl rfl rfl rfl).1⟩

/-- An enabled filter state at the pre-state `Vhp = 100, Vbp = 2000, Vlp = 0`
with `w0_ceil_1 = 105414` (the 16 kHz cap value) and routing mask 0
(so the filtered input `Vi` is 0). -/
def cex4Filter : Filter := { sampleFilter with Vhp := 100, Vbp := 2000 }

/-- Counterexample to C4 as stated: on `cex4Filter`, the code's update gives
`Vlp = -201` (it computes `dVlp` from the PRE-update `Vbp`), while executing
the spec's equations sequentially (reading the already-updated `Vbp`) gives
`Vlp = -200`. -/
theorem C4_cex :
    ((cex4Filter.clock1 0 0 0 0).Vlp : Int)
      ≠ (integStepSeqSpec cex4Filter.w0_ceil_1 cex4Filter.q1024div 0
          cex4Filter.Vhp cex4Filter.Vbp cex4Filter.Vlp).2.2 := by
  decide

/-- C4 (amended): the per-cycle integrator update of `Filter::clock` computes
both `dVbp` and `dVlp` from the PRE-update state (`dVlp` reads the pre-update
`Vbp`), then updates in parallel; only the final `Vhp` reads the updated
`Vbp` and `Vlp`. -/
theorem C4_integratorUpdate (f : Filter) (v1 v2 v3 e : Int) (hen : f.enabled = true) :
    (f.clock1 v1 v2 v3 e).Vbp = f.Vbp - asr (f.w0_ceil_1 * f.Vhp) 20
    ∧ (f.clock1 v1 v2 v3 e).Vlp = f.Vlp - asr (f.w0_ceil_1 * f.Vbp) 20
    ∧ (f.clock1 v1 v2 v3 e).Vhp
        = asr ((f.clock1 v1 v2 v3 e).Vbp * f.q1024div) 10
          - (f.clock1 v1 v2 v3 e).Vlp
          - (Filter.route f.filt (f.scaleVoices v1 v2 v3 e).1
              (f.scaleVoices v1 v2 v3 e).2.1 (f.scaleVoices v1 v2 v3 e).2.2.1
              (f.scaleVoices v1 v2 v3 e).2.2.2.1).1 := by
  refine ⟨?_, ?_, ?_⟩ <;> simp [Filter.clock1, hen]

/-- Witness for C4 on a concrete enabled filter state. -/
theorem C4_integratorUpdate_witness :
    sampleFilter.enabled = true
    ∧ ((sampleFilter.clock1 3 4 5 6).Vbp
        = sampleFilter.Vbp - asr (sampleFilter.w0_ceil_1 * sampleFilter.Vhp) 20
      ∧ (sampleFilter.clock1 3 4 5 6).Vlp
        = sampleFilter.Vlp - asr (sampleFilter.w0_ceil_1 * sampleFilter.Vbp) 20
      ∧ (sampleFilter.clock1 3 4 5 6).Vhp
        = asr ((sampleFilter.clock1 3 4 5 6).Vbp * sampleFilter.q1024div) 10
          - (sampleFilter.clock1 3 4 5 6).Vlp
          - (Filter.route sampleFilter.filt (sampleFilter.scaleVoices 3 4 5 6).1
              (sampleFilter.scaleVoices 3 4 5 6).2.1 (sampleFilter.scaleVoices 3 4 5 6).2.2.1
              (sampleFilter.scaleVoices 3 4 5 6).2.2.2.1).1) :=
  ⟨rfl, C4_integratorUpdate sampleFilter 3 4 5 6 rfl⟩

/-- C7: when `voice3off` is set and bit 2 of the routing mask is clear,
voice 3 contributes 0 to both paths (its scaled value is 0 and the clock
result does not depend on the voice 3 input at all); when bit 2 of the
routing mask is set, voice 3 is processed exactly as if `voice3off` were
clear. -/
theorem C7_voice3off (f : Filter) (v1 v2 v3 w3 e : Int) :
    (f.voice3off ≠ 0 → f.filt &&& 0x04 = 0 →
      (f.scaleVoices v1 v2 v3 e).2.2.1 = 0
      ∧ f.clock1 v1 v2 v3 e = f.clock1 v1 v2 w3 e)
    ∧ (f.filt &&& 0x04 ≠ 0 →
        f.scaleVoices v1 v2 v3 e = Filter.scaleVoices { f with voice3off := 0 } v1 v2 v3 e) := by
  constructor
  · intro h3 h4
    constructor
    · by_cases hd : f.dithering_enabled <;> simp [Filter.scaleVoices, h3, h4, hd]
    · have hsc : f.scaleVoices v1 v2 v3 e = f.scaleVoices v1 v2 w3 e := by
        by_cases hd : f.dithering_enabled <;> simp [Filter.scaleVoices, h3, h4, hd]
      unfold Filter.clock1
      rw [hsc]
  · intro h4
    by_cases hd : f.dithering_enabled <;> simp [Filter.scaleVoices, h4, hd]

/-- A filter state with voice 3 switched off and voice 3 not routed through
the filter (`filt = 0`). -/
def v3offFilter : Filter := { sampleFilter with voice3off := 1 }

/-- A filter state with voice 3 switched off but routed through the filter
(bit 2 of the routing mask set). -/
def v3routedFilter : Filter := { sampleFilter with voice3off := 1, filt := 4 }

/-- Witness for C7 in both scenarios, on concrete states and inputs. -/
theorem C7_voice3off_witness :
    (v3offFilter.voice3off ≠ 0 ∧ v3offFilter.filt &&& 0x04 = 0
      ∧ v3routedFilter.filt &&& 0x04 ≠ 0)
    ∧ ((v3offFilter.scaleVoices 11 22 33 44).2.2.1 = 0
        ∧ v3offFilter.clock1 11 22 33 44 = v3offFilter.clock1 11 22 55 44)
    ∧ v3routedFilter.scaleVoices 11 22 33 44
        = Filter.scaleVoices { v3routedFilter with voice3off := 0 } 11 22 33 44 :=
  ⟨⟨by decide, by decide, by decide⟩,
    (C7_voice3off v3offFilter 11 22 33 55 44).1 (by decide) (by decide),
    (C7_voice3off v3routedFilter 11 22 33 55 44).2 (by decide)⟩

/-- C10: with the filter disabled, each clock call (single- and multi-cycle)
sets `Vnf` to the sum of the four scaled inputs and resets
`Vhp = Vbp = Vlp = 0`; `output()` then returns `(Vnf + mixer_DC) * vol`; and
the cutoff, resonance and mode registers (together with every coefficient
derived from them) have no effect on the output. -/
theorem C10_disabledFilter (f : Filter) (c r : Nat) (w wc wd q : Int) (m : Nat)
    (dt : Nat) (v1 v2 v3 e : Int) (hen : f.enabled = false) :
    (Filter.clock1 (f.setTone c r w wc wd q m) v1 v2 v3 e).Vnf
        = (f.scaleVoices v1 v2 v3 e).1 + (f.scaleVoices v1 v2 v3 e).2.1
          + (f.scaleVoices v1 v2 v3 e).2.2.1 + (f.scaleVoices v1 v2 v3 e).2.2.2.1
    ∧ (Filter.clock1 (f.setTone c r w wc wd q m) v1 v2 v3 e).Vhp = 0
    ∧ (Filter.clock1 (f.setTone c r w wc wd q m) v1 v2 v3 e).Vbp = 0
    ∧ (Filter.clock1 (f.setTone c r w wc wd q m) v1 v2 v3 e).Vlp = 0
    ∧ (Filter.clock1 (f.setTone c r w wc wd q m) v1 v2 v3 e).output
        = ((Filter.clock1 (f.setTone c r w wc wd q m) v1 v2 v3 e).Vnf + f.mixer_DC)
          * (f.vol : Int)
    ∧ Filter.clockN (f.setTone c r w wc wd q m) dt v1 v2 v3 e
        = Filter.clock1 (f.setTone c r w wc wd q m) v1 v2 v3 e
    ∧ (Filter.clock1 (f.setTone c r w wc wd q m) v1 v2 v3 e).output
        = (f.clock1 v1 v2 v3 e).output := by
  refine ⟨?_, ?_, ?_, ?_, ?_, ?_, ?_⟩ <;>
    simp [Filter.clock1, Filter.clockN, Filter.output, Filter.setTone,
      Filter.scaleVoices, hen]

/-- A disabled-filter state. -/
def offFilter : Filter := { sampleFilter with enabled := false }

/-- Witness for C10 on a concrete disabled state with non-trivial inputs and
scrambled cutoff/resonance/mode registers. -/
theorem C10_disabledFilter_witness :
    offFilter.enabled = false
    ∧ ((Filter.clock1 (offFilter.setTone 2047 15 999 999 999 683 7) 70000 80000 90000 60000).Vnf
        = (offFilter.scaleVoices 70000 80000 90000 60000).1
          + (offFilter.scaleVoices 70000 80000 90000 60000).2.1
          + (offFilter.scaleVoices 70000 80000 90000 60000).2.2.1
          + (offFilter.scaleVoices 70000 80000 90000 60000).2.2.2.1
      ∧ (Filter.clock1 (offFilter.setTone 2047 15 999 999 999 683 7) 70000 80000 90000 60000).Vhp = 0
      ∧ (Filter.clock1 (offFilter.setTone 2047 15 999 999 999 683 7) 70000 80000 90000 60000).Vbp = 0
      ∧ (Filter.clock1 (offFilter.setTone 2047 15 999 999 999 683 7) 70000 80000 90000 60000).Vlp = 0
      ∧ (Filter.clock1 (offFilter.setTone 2047 15 999 999 999 683 7) 70000 80000 90000 60000).output
          = ((Filter.clock1 (offFilter.setTone 2047 15 999 999 999 683 7) 70000 80000 90000 60000).Vnf
              + offFilter.mixer_DC) * (offFilter.vol : Int)
      ∧ Filter.clockN (offFilter.setTone 2047 15 999 999 999 683 7) 9 70000 80000 90000 60000
          = Filter.clock1 (offFilter.setTone 2047 15 999 999 999 683 7) 70000 80000 90000 60000
      ∧ (Filter.clock1 (offFilter.setTone 2047 15 999 999 999 683 7) 70000 80000 90000 60000).output
          = (offFilter.clock1 70000 80000 90000 60000).output) :=
  ⟨rfl, C10_disabledFilter offFilter 2047 15 999 999 999 683 7 9 70000 80000 90000 60000 rfl⟩

lemma scaleVoices_eq_base (f : Filter) (v1 v2 v3 e : Int)
    (hd : f.dithering_enabled = false) (hv : ∀ i, f.voice_vol i = 256) :
    f.scaleVoices v1 v2 v3 e = f.baseScaleVoices v1 v2 v3 e := by
  by_cases h3 : f.voice3off ≠ 0 ∧ f.filt &&& 0x04 = 0 <;>
    simp [Filter.scaleVoices, Filter.baseScaleVoices, hd, hv, asr_mul_256, h3]

/-- Counterexample to C8 as stated: output dithering is NOT disabled in a
freshly-constructed `Filter` — the in-class initializer of filter.h line 228
is `dithering_enabled = true` ("default ON for quality"). -/
theorem C8_cex : (Filter.construct (fun _ => 0) 0).1.dithering_enabled = true := rfl

/-- C8 (amended): per-voice gain trim and resonance boost are disabled (unity
gain, zero boost) in a freshly-constructed filter, and the SID16 extension
state starts with FM, per-voice volume and resonance boost disabled — but
dithering defaults to ENABLED and must be switched off explicitly.  With
dithering off and unity per-voice gains, every clock call (single- and
multi-cycle) is bit-exact to the base stock-chip behavior with plain `>> 7`
voice scaling (`Filter.baseClock1` / `Filter.baseClockN`). -/
theorem C8_extensionsOptIn :
    (∀ stream pos,
      (Filter.construct stream pos).1.voice_vol 0 = 256
      ∧ (Filter.construct stream pos).1.voice_vol 1 = 256
      ∧ (Filter.construct stream pos).1.voice_vol 2 = 256
      ∧ (Filter.construct stream pos).1.res_boost = 0
      ∧ (Filter.construct stream pos).1.dithering_enabled = true)
    ∧ (SID16Ext.init.fm_enabled = false
      ∧ SID16Ext.init.voice_volume_enabled = false
      ∧ SID16Ext.init.res_boost_enabled = false
      ∧ ∀ i, SID16Ext.init.voice_volume i = 256 ∧ SID16Ext.init.fm_mod_depth i = 0)
    ∧ (∀ (f : Filter) (v1 v2 v3 e : Int),
        f.dithering_enabled = false → (∀ i, f.voice_vol i = 256) →
        f.clock1 v1 v2 v3 e = f.baseClock1 v1 v2 v3 e)
    ∧ (∀ (f : Filter) (dt : Nat) (v1 v2 v3 e : Int),
        f.dithering_enabled = false → (∀ i, f.voice_vol i = 256) →
        f.clockN dt v1 v2 v3 e = f.baseClockN dt v1 v2 v3 e) := by
  refine ⟨fun stream pos => ⟨rfl, rfl, rfl, rfl, rfl⟩,
    ⟨rfl, rfl, rfl, fun i => ⟨rfl, rfl⟩⟩, ?_, ?_⟩
  · intro f v1 v2 v3 e hd hv
    unfold Filter.clock1 Filter.baseClock1
    rw [scaleVoices_eq_base f v1 v2 v3 e hd hv]
  · intro f dt v1 v2 v3 e hd hv
    unfold Filter.clockN Filter.baseClockN
    rw [scaleVoices_eq_base f v1 v2 v3 e hd hv]

/-- Witness for C8: the bit-exactness part applied on a concrete filter state
with dithering disabled and unity voice volumes. -/
theorem C8_extensionsOptIn_witness :
    (sampleFilter.dithering_enabled = false ∧ ∀ i, sampleFilter.voice_vol i = 256)
    ∧ sampleFilter.clock1 70000 80000 90000 60000
        = sampleFilter.baseClock1 70000 80000 90000 60000
    ∧ sampleFilter.clockN 9 70000 80000 90000 60000
        = sampleFilter.baseClockN 9 70000 80000 90000 60000 :=
  ⟨⟨rfl, fun _ => rfl⟩,
    C8_extensionsOptIn.2.2.1 sampleFilter 70000 80000 90000 60000 rfl (fun _ => rfl),
    C8_extensionsOptIn.2.2.2 sampleFilter 9 70000 80000 90000 60000 rfl (fun _ => rfl)⟩

/-- Modelled from the spec: `Filter::enable_dithering` is declared in
filter.h line 127 and implemented in the missing `filter_impl.h`; it sets the
`dithering_enabled` flag. -/
def Filter.enable_dithering (f : Filter) (v : Bool) : Filter :=
  { f with dithering_enabled := v }

lemma clock1_dith (f : Filter) (a b c d : Int) :
    (f.clock1 a b c d).dithering_enabled = f.dithering_enabled := by
  by_cases hen : f.enabled = false <;> simp [Filter.clock1, hen]

lemma clock1_swap_rnd (f : Filter) (r1 r2 : Randomnoise) (a b c d : Int)
    (hd : f.dithering_enabled = false) :
    Filter.clock1 { f with rnd := r1 } a b c d
      = { Filter.clock1 { f with rnd := r2 } a b c d with rnd := r1 } := by
  by_cases h3 : f.voice3off ≠ 0 ∧ f.filt &&& 0x04 = 0 <;>
    by_cases hen : f.enabled = false <;>
      simp [Filter.clock1, Filter.scaleVoices, hd, h3, hen]

lemma runOutputs_swap_rnd (cmds : List FilterCmd) :
    ∀ (f : Filter) (r1 r2 : Randomnoise), f.dithering_enabled = false →
      Filter.runOutputs { f with rnd := r1 } cmds
        = Filter.runOutputs { f with rnd := r2 } cmds := by
  induction cmds with
  | nil =>
    intro f r1 r2 hd
    rfl
  | cons cmd cs ih =>
    intro f r1 r2 hd
    cases cmd with
    | writeModeVol v =>
      exact ih (f.writeMODE_VOL v) r1 r2 hd
    | step a b c d =>
      show (Filter.clock1 { f with rnd := r1 } a b c d).output
          :: Filter.runOutputs (Filter.clock1 { f with rnd := r1 } a b c d) cs
        = (Filter.clock1 { f with rnd := r2 } a b c d).output
          :: Filter.runOutputs (Filter.clock1 { f with rnd := r2 } a b c d) cs
      rw [clock1_swap_rnd f r1 r2 a b c d hd]
      have hout : Filter.output { Filter.clock1 { f with rnd := r2 } a b c d with rnd := r1 }
          = Filter.output (Filter.clock1 { f with rnd := r2 } a b c d) := rfl
      rw [hout]
      congr 1
      have hd2 : (Filter.clock1 { f with rnd := r2 } a b c d).dithering_enabled = false := by
        rw [clock1_dith]
        exact hd
      exact ih (Filter.clock1 { f with rnd := r2 } a b c d) r1
        (Filter.clock1 { f with rnd := r2 } a b c d).rnd hd2

/-- The global `rand()` stream of the C1 counterexample: the 1024 values the
first construction consumes are all 0; the next 1024 values (consumed by the
second construction) are all `2^18`. -/
def cexStream : Nat → Nat := fun n => if n < 1024 then 0 else 262144

/-- The command sequence of the C1 counterexample: set master volume to 15,
then clock one cycle with voice 1 input 64. -/
def cexRun : List FilterCmd := [FilterCmd.writeModeVol 15, FilterCmd.step 64 0 0 0]

/-- Counterexample to C1 as stated: two freshly-constructed `Filter`
instances — the second construction resuming the global `rand()` stream where
the first left it — produce DIFFERENT output sequences (`[0]` vs `[15]`) for
the identical register-write/clock sequence `cexRun`, because the default-on
dithering reads the instances' differing noise buffers. -/
theorem C1_cex :
    Filter.runOutputs (Filter.construct cexStream 0).1 cexRun
      ≠ Filter.runOutputs
          (Filter.construct cexStream ((Filter.construct cexStream 0).2)).1 cexRun := by
  decide

/-- C1 (amended): determinism holds once the dithering noise source is out of
the picture — with dithering disabled, two freshly-constructed instances
produce bit-identical output sequences for every identical sequence of
register writes and clock-cycle calls, regardless of the `rand()` stream
contents and cursor positions that seeded their noise buffers. -/
theorem C1_determinism (stream1 stream2 : Nat → Nat) (pos1 pos2 : Nat)
    (cmds : List FilterCmd) :
    Filter.runOutputs (((Filter.construct stream1 pos1).1).enable_dithering false) cmds
      = Filter.runOutputs (((Filter.construct stream2 pos2).1).enable_dithering false) cmds :=
  runOutputs_swap_rnd cmds (((Filter.construct stream2 pos2).1).enable_dithering false)
    ((Filter.construct stream1 pos1).1).rnd
    (((Filter.construct stream2 pos2).1).enable_dithering false).rnd rfl

end ReSID
